import Mathlib

set_option linter.unusedVariables false

/-
Verification development for the realtime coordination core of the two-player
match-3 battle game.  The definitions below are a shallow embedding of:

  * src/src/StateSynchronizer.ts   (snapshots, deltas, sync-mode selection)
  * src/src/ReconnectionManager.ts (snapshot ring store, ConflictResolver)
  * src/server/battleServer.cjs    (BattleRoom / BattleServer message handling)

JavaScript numbers that hold timestamps, versions, scores and counters are
modelled as Int; grids (CandyType[][]) are lists of lists; out-of-bounds array
reads (undefined in JS) are modelled with Option.  Stateful methods become
pure functions from an explicit state (plus the current clock value, replacing
Date.now()) to the new state together with the emitted messages or writes.
-/

/-- CandyType enum from src/src/GridSystem.ts (re-exported by the grid engine). -/
inductive CandyType
  | RED | BLUE | GREEN | YELLOW | PURPLE | EMPTY
deriving DecidableEq, Repr

/-- GameEventType enum from src/src/BattleManager.ts. -/
inductive GameEventType
  | GRAVITY_REVERSE | FROZEN_COLORS | COMBO_BONUS | OBSTACLE_GENERATE | SPEED_UP
deriving DecidableEq, Repr

/-- A grid of candy cells (CandyType[][] in the source). -/
abbrev Grid := List (List CandyType)

/-- Read one cell of a grid; none models an out-of-bounds (undefined) access. -/
def cellAt (g : Grid) (r c : Nat) : Option CandyType :=
  (g[r]?).bind (fun row => row[c]?)

/-- Grid position {row, col} from src/src/GridSystem.ts. -/
structure Position where
  row : Nat
  col : Nat
deriving DecidableEq, Repr

/-- StateSnapshot interface from src/src/StateSynchronizer.ts. -/
structure StateSnapshot where
  timestamp : Int
  version : Int
  playerGrid : Grid
  opponentGrid : Grid
  playerScore : Int
  opponentScore : Int
  playerMoves : Int
  opponentMoves : Int
  eventProgress : Int
  activeEvents : List GameEventType
  currentTurn : String
deriving DecidableEq, Repr

/-- StateChangeType enum from src/src/StateSynchronizer.ts. -/
inductive StateChangeType
  | GRID_UPDATE | SCORE_UPDATE | MOVES_UPDATE | EVENT_UPDATE | TURN_UPDATE
deriving DecidableEq, Repr

/-- Which of the two grids a cell path addresses. -/
inductive GridSel
  | player | opponent
deriving DecidableEq, Repr

/-- Parsed form of a StateChange.path string.  The source stores paths such as
"playerGrid[3][4]" or "playerScore"; applyGridChange parses the cell form with
a regex and ignores anything that does not match, which the `other`
constructor stands for. -/
inductive ChangePath
  | cell (sel : GridSel) (row col : Nat)
  | playerScore | opponentScore
  | playerMoves | opponentMoves
  | eventProgress | activeEvents
  | currentTurn
  | other (s : String)
deriving DecidableEq, Repr

/-- Typed form of the untyped StateChange.value field.  The source stores the
new value of whichever field changed; each constructor covers one of the value
shapes the synchronizer actually produces. -/
inductive ChangeValue
  | num (n : Int)
  | str (s : String)
  | events (es : List GameEventType)
  | cand (c : CandyType)
deriving DecidableEq, Repr

/-- Coerce a change value to an Int, as the dynamically typed assignment in the
source does for the scalar fields. -/
def ChangeValue.asInt : ChangeValue → Int
  | .num n => n
  | _ => 0

/-- Coerce a change value to a String (used for currentTurn). -/
def ChangeValue.asStr : ChangeValue → String
  | .str s => s
  | _ => ""

/-- Coerce a change value to an event list (used for activeEvents). -/
def ChangeValue.asEvents : ChangeValue → List GameEventType
  | .events es => es
  | _ => []

/-- Coerce a change value to a candy cell (used for grid updates). -/
def ChangeValue.asCand : ChangeValue → CandyType
  | .cand c => c
  | _ => CandyType.EMPTY

/-- StateChange interface from src/src/StateSynchronizer.ts (the oldValue
field is never read by the synchronizer, so it is omitted here). -/
structure StateChange where
  ctype : StateChangeType
  path : ChangePath
  value : ChangeValue
deriving DecidableEq, Repr

/-- StateDelta interface from src/src/StateSynchronizer.ts. -/
structure StateDelta where
  version : Int
  baseVersion : Int
  changes : List StateChange
  timestamp : Int
deriving DecidableEq, Repr

/-- SyncMode enum from src/src/StateSynchronizer.ts. -/
inductive SyncMode
  | FULL | DELTA | HYBRID
deriving DecidableEq, Repr

namespace StateSynchronizer

/-- Configuration constant maxDeltaSize (switch to full sync above this). -/
def maxDeltaSize : Nat := 50

/-- Configuration constant snapshotInterval (full snapshot every N syncs). -/
def snapshotInterval : Nat := 10

/-- Mutable fields of the StateSynchronizer class that the verified methods
read: the two retained snapshots, the sync mode, and stats.totalSyncs. -/
structure State where
  currentSnapshot : Option StateSnapshot
  previousSnapshot : Option StateSnapshot
  syncMode : SyncMode
  totalSyncs : Nat
deriving DecidableEq, Repr

/-- Private method compareGrids: cell-by-cell diff, iterating over the old
grid's rows and row lengths, emitting one GRID_UPDATE change per differing
cell.  When the new grid lacks a cell the source would store undefined as the
change value; the typed embedding records EMPTY there (no claim depends on
that corner). -/
def compareGrids (oldGrid newGrid : Grid) (sel : GridSel) : List StateChange :=
  (List.range oldGrid.length).flatMap (fun row =>
    (List.range ((oldGrid[row]?).getD []).length).filterMap (fun col =>
      if cellAt oldGrid row col ≠ cellAt newGrid row col then
        some { ctype := .GRID_UPDATE
               path := .cell sel row col
               value := .cand ((cellAt newGrid row col).getD CandyType.EMPTY) }
      else none))

/-- Method generateDelta, taking the retained previous/current snapshots as
arguments and the clock value used for the delta's timestamp. -/
def generateDelta (now : Int) (previous current : StateSnapshot) : Option StateDelta :=
  let changes : List StateChange :=
    compareGrids previous.playerGrid current.playerGrid .player ++
    compareGrids previous.opponentGrid current.opponentGrid .opponent ++
    (if previous.playerScore ≠ current.playerScore then
      [{ ctype := .SCORE_UPDATE, path := .playerScore, value := .num current.playerScore }] else []) ++
    (if previous.opponentScore ≠ current.opponentScore then
      [{ ctype := .SCORE_UPDATE, path := .opponentScore, value := .num current.opponentScore }] else []) ++
    (if previous.playerMoves ≠ current.playerMoves then
      [{ ctype := .MOVES_UPDATE, path := .playerMoves, value := .num current.playerMoves }] else []) ++
    (if previous.opponentMoves ≠ current.opponentMoves then
      [{ ctype := .MOVES_UPDATE, path := .opponentMoves, value := .num current.opponentMoves }] else []) ++
    (if previous.eventProgress ≠ current.eventProgress then
      [{ ctype := .EVENT_UPDATE, path := .eventProgress, value := .num current.eventProgress }] else []) ++
    (if previous.activeEvents ≠ current.activeEvents then
      [{ ctype := .EVENT_UPDATE, path := .activeEvents, value := .events current.activeEvents }] else []) ++
    (if previous.currentTurn ≠ current.currentTurn then
      [{ ctype := .TURN_UPDATE, path := .currentTurn, value := .str current.currentTurn }] else [])
  if changes.isEmpty then none
  else some { version := current.version, baseVersion := previous.version
              changes := changes, timestamp := now }

/-- Method generateDelta as called on the synchronizer state (returns null
when either retained snapshot is missing). -/
def generateDeltaS (now : Int) (st : State) : Option StateDelta :=
  match st.currentSnapshot, st.previousSnapshot with
  | some c, some p => generateDelta now p c
  | _, _ => none

/-- Private helper setting one grid cell; mirrors snapshot.grid[row][col] = v,
a no-op when the row or column is out of bounds (where the source would fault
or grow a sparse array, situations no snapshot produced by the core reaches). -/
def setCell (g : Grid) (r c : Nat) (v : CandyType) : Grid :=
  g.set r (((g[r]?).getD []).set c v)

/-- Private method applyGridChange. -/
def applyGridChange (s : StateSnapshot) (ch : StateChange) : StateSnapshot :=
  match ch.path with
  | .cell .player r c => { s with playerGrid := setCell s.playerGrid r c ch.value.asCand }
  | .cell .opponent r c => { s with opponentGrid := setCell s.opponentGrid r c ch.value.asCand }
  | _ => s

/-- One iteration of the change-application loop inside applyDelta. -/
def applyChange (s : StateSnapshot) (ch : StateChange) : StateSnapshot :=
  match ch.ctype with
  | .GRID_UPDATE => applyGridChange s ch
  | .SCORE_UPDATE =>
    match ch.path with
    | .playerScore => { s with playerScore := ch.value.asInt }
    | .opponentScore => { s with opponentScore := ch.value.asInt }
    | _ => s
  | .MOVES_UPDATE =>
    match ch.path with
    | .playerMoves => { s with playerMoves := ch.value.asInt }
    | .opponentMoves => { s with opponentMoves := ch.value.asInt }
    | _ => s
  | .EVENT_UPDATE =>
    match ch.path with
    | .eventProgress => { s with eventProgress := ch.value.asInt }
    | .activeEvents => { s with activeEvents := ch.value.asEvents }
    | _ => s
  | .TURN_UPDATE => { s with currentTurn := ch.value.asStr }

/-- Method applyDelta: deep-clone the snapshot, overwrite version and
timestamp from the delta, then apply every change in order. -/
def applyDelta (s : StateSnapshot) (d : StateDelta) : StateSnapshot :=
  d.changes.foldl applyChange { s with version := d.version, timestamp := d.timestamp }

/-- Method shouldUseDeltaSync. -/
def shouldUseDeltaSync (now : Int) (st : State) : Bool :=
  match st.syncMode with
  | .FULL => false
  | .DELTA => true
  | .HYBRID =>
    match st.previousSnapshot with
    | none => false
    | some _ =>
      if st.totalSyncs % snapshotInterval = 0 then false
      else
        match generateDeltaS now st with
        | none => true
        | some d => d.changes.length ≤ maxDeltaSize

/-- Number of change records the generated delta would contain (0 when
generateDelta returns null). -/
def deltaChangeCount (now : Int) (st : State) : Nat :=
  match generateDeltaS now st with
  | some d => d.changes.length
  | none => 0

end StateSynchronizer

/-- ConflictType enum from src/src/ReconnectionManager.ts (ConflictResolver
section of the file). -/
inductive ConflictType
  | VERSION_MISMATCH | CONCURRENT_MOVES | STATE_DIVERGENCE
  | GRID_INCONSISTENCY | SCORE_MISMATCH
deriving DecidableEq, Repr

/-- ResolutionStrategy enum. -/
inductive ResolutionStrategy
  | SERVER_AUTHORITATIVE | CLIENT_AUTHORITATIVE | LATEST_TIMESTAMP | MERGE | ROLLBACK
deriving DecidableEq, Repr

/-- CompensationMove interface; oldValue/newValue are the raw (possibly
undefined, hence Option) cells read from the two grids. -/
structure CompensationMove where
  position : Position
  oldValue : Option CandyType
  newValue : Option CandyType
  reason : String
deriving DecidableEq, Repr

/-- ResolutionResult interface. -/
structure ResolutionResult where
  success : Bool
  strategy : ResolutionStrategy
  resolvedState : StateSnapshot
  rollbackRequired : Bool
  compensationMoves : List CompensationMove
  message : String
deriving DecidableEq, Repr

namespace ConflictResolver

/-- Private method compareGrids: count differing cells, iterating over the
intersection of the two grids' dimensions. -/
def compareGrids (grid1 grid2 : Grid) : Nat :=
  ((List.range (min grid1.length grid2.length)).map (fun row =>
    ((List.range (min ((grid1[row]?).getD []).length ((grid2[row]?).getD []).length)).filter
      (fun col => cellAt grid1 row col ≠ cellAt grid2 row col)).length)).sum

/-- Method detectConflict, reduced to which conflict type (if any) fires; the
conflict record it builds carries this type plus the two versions, a
timestamp and a description string, and is appended to the bounded history. -/
def detectConflict (localState remoteState : StateSnapshot) : Option ConflictType :=
  if (localState.version - remoteState.version).natAbs > 1 then
    some .VERSION_MISMATCH
  else if compareGrids localState.playerGrid remoteState.opponentGrid > 5 then
    some .GRID_INCONSISTENCY
  else if ((localState.playerScore + localState.opponentScore) -
           (remoteState.playerScore + remoteState.opponentScore)).natAbs > 100 then
    some .SCORE_MISMATCH
  else if (localState.timestamp - remoteState.timestamp).natAbs > 10000 then
    some .STATE_DIVERGENCE
  else
    none

/-- Private method generateCompensationMoves: one move per cell of the fixed
8 x 8 player grid where the current and target snapshots disagree. -/
def generateCompensationMoves (currentState targetState : StateSnapshot) : List CompensationMove :=
  (List.range 8).flatMap (fun row =>
    (List.range 8).filterMap (fun col =>
      if cellAt currentState.playerGrid row col ≠ cellAt targetState.playerGrid row col then
        some { position := { row := row, col := col }
               oldValue := cellAt currentState.playerGrid row col
               newValue := cellAt targetState.playerGrid row col
               reason := "Grid synchronization" }
      else none))

/-- Private method mergeGrids: rows up to the longer grid, always 8 columns,
each cell preferring grid1's cell when it is non-empty (missing cells read as
EMPTY via the ?? fallback in the source). -/
def mergeGrids (grid1 grid2 : Grid) : Grid :=
  (List.range (max grid1.length grid2.length)).map (fun row =>
    (List.range 8).map (fun col =>
      let cell1 := (cellAt grid1 row col).getD CandyType.EMPTY
      let cell2 := (cellAt grid2 row col).getD CandyType.EMPTY
      if cell1 ≠ CandyType.EMPTY then cell1 else cell2))

/-- Private method resolveServerAuthoritative (deepClone is the identity on
pure values). -/
def resolveServerAuthoritative (isServerAuthority : Bool)
    (localState remoteState : StateSnapshot) : ResolutionResult :=
  let resolvedState := if isServerAuthority then localState else remoteState
  { success := true
    strategy := .SERVER_AUTHORITATIVE
    resolvedState := resolvedState
    rollbackRequired := !isServerAuthority
    compensationMoves := generateCompensationMoves localState resolvedState
    message := "Resolved using server authority" }

/-- Private method resolveClientAuthoritative. -/
def resolveClientAuthoritative (localState remoteState : StateSnapshot) : ResolutionResult :=
  { success := true
    strategy := .CLIENT_AUTHORITATIVE
    resolvedState := localState
    rollbackRequired := false
    compensationMoves := []
    message := "Resolved using client authority" }

/-- Private method resolveLatestTimestamp (useLocal is local >= remote). -/
def resolveLatestTimestamp (localState remoteState : StateSnapshot) : ResolutionResult :=
  let useLocal := remoteState.timestamp ≤ localState.timestamp
  let resolvedState := if useLocal then localState else remoteState
  { success := true
    strategy := .LATEST_TIMESTAMP
    resolvedState := resolvedState
    rollbackRequired := !useLocal
    compensationMoves :=
      if useLocal then [] else generateCompensationMoves localState resolvedState
    message :=
      if useLocal then "Resolved using local state (latest timestamp)"
      else "Resolved using remote state (latest timestamp)" }

/-- Private method resolveMerge: deep-clone the local state, take the max of
every scalar, the later snapshot's timestamp/turn/active events, merge the
grid pairs, and bump the version past both inputs. -/
def resolveMerge (localState remoteState : StateSnapshot) : ResolutionResult :=
  let base := localState
  let base := { base with
    playerScore := max localState.playerScore remoteState.playerScore
    opponentScore := max localState.opponentScore remoteState.opponentScore
    playerMoves := max localState.playerMoves remoteState.playerMoves
    opponentMoves := max localState.opponentMoves remoteState.opponentMoves
    eventProgress := max localState.eventProgress remoteState.eventProgress }
  let base :=
    if remoteState.timestamp > localState.timestamp then
      { base with
        timestamp := remoteState.timestamp
        currentTurn := remoteState.currentTurn
        activeEvents := remoteState.activeEvents }
    else base
  let merged := { base with
    playerGrid := mergeGrids localState.playerGrid remoteState.opponentGrid
    opponentGrid := mergeGrids localState.opponentGrid remoteState.playerGrid
    version := max localState.version remoteState.version + 1 }
  { success := true
    strategy := .MERGE
    resolvedState := merged
    rollbackRequired := false
    compensationMoves := generateCompensationMoves localState merged
    message := "Resolved by merging both states" }

/-- Private method resolveRollback: keep the state with the smaller version. -/
def resolveRollback (localState remoteState : StateSnapshot) : ResolutionResult :=
  let olderState :=
    if localState.version < remoteState.version then localState else remoteState
  { success := true
    strategy := .ROLLBACK
    resolvedState := olderState
    rollbackRequired := true
    compensationMoves := []
    message := "Rolled back to earlier version" }

/-- Method resolveConflict: dispatch on the configured strategy.  The conflict
argument is threaded through but, as in the source, never read by any
resolver; the statistics updates and the try/catch wrapper (unreachable for
these pure resolvers) are not modelled. -/
def resolveConflict (strategy : ResolutionStrategy) (isServerAuthority : Bool)
    (conflict : ConflictType) (localState remoteState : StateSnapshot) : ResolutionResult :=
  match strategy with
  | .SERVER_AUTHORITATIVE => resolveServerAuthoritative isServerAuthority localState remoteState
  | .CLIENT_AUTHORITATIVE => resolveClientAuthoritative localState remoteState
  | .LATEST_TIMESTAMP => resolveLatestTimestamp localState remoteState
  | .MERGE => resolveMerge localState remoteState
  | .ROLLBACK => resolveRollback localState remoteState

end ConflictResolver

/-- GameStateSnapshot interface from src/src/ReconnectionManager.ts; its
moveHistory entries are untyped in the source and opaque to the manager. -/
structure GameStateSnapshot where
  timestamp : Int
  roomId : String
  playerId : String
  opponentId : String
  state : StateSnapshot
  lastSyncedMove : Int
deriving DecidableEq, Repr

namespace ReconnectionManager

/-- Configuration constant maxSnapshots (size of the in-memory ring). -/
def maxSnapshots : Nat := 10

/-- Configuration constant snapshotInterval in milliseconds. -/
def snapshotInterval : Int := 5000

/-- Mutable fields of the ReconnectionManager read by saveSnapshot. -/
structure State where
  stateSnapshots : List GameStateSnapshot
  lastSnapshotTime : Int
deriving DecidableEq, Repr

/-- Method saveSnapshot: returns the new manager state together with the
snapshot written to the durable store (saveToLocalStorage), when any. -/
def saveSnapshot (st : State) (now : Int) (snapshot : GameStateSnapshot) :
    State × Option GameStateSnapshot :=
  if now - st.lastSnapshotTime < snapshotInterval then
    (st, none)
  else
    let ring := st.stateSnapshots ++ [snapshot]
    let ring := if ring.length > maxSnapshots then ring.tail else ring
    ({ stateSnapshots := ring, lastSnapshotTime := now }, some snapshot)

end ReconnectionManager

/-- Keep the last n elements of a list. -/
def lastN {α : Type} (n : Nat) (l : List α) : List α :=
  l.drop (l.length - n)

/-- Move payload {posA, posB, moveNumber} carried by MOVE frames (opaque to
the server, which forwards it unchanged). -/
structure MoveData where
  posA : Position
  posB : Position
  moveNumber : Int
deriving DecidableEq, Repr

/-- Per-player entry of BattleRoom.state.playerStates. -/
structure PlayerState where
  score : Int
  moves : Int
  connected : Bool
deriving DecidableEq, Repr

/-- One entry of BattleRoom.state.moveHistory. -/
structure MoveRecord where
  playerId : String
  move : MoveData
  timestamp : Int
deriving DecidableEq, Repr

/-- Messages the server sends, by wire tag and data shape.  GAME_START is
emitted with two different data shapes: gameStart {roomId, players,
startingPlayer} by BattleRoom.startGame, and gameStartMatch {roomId,
opponentId} by the matchmaker.  The error constructor carries the code field
of the ERROR frames the repository's protocol document lists. -/
inductive ServerMessage
  | gameStart (roomId : String) (players : List String) (startingPlayer : String)
  | gameStartMatch (roomId : String) (opponentId : String)
  | roomJoined (roomId : String) (opponentId : Option String) (playerCount : Nat)
  | roomFull (roomId : String)
  | roomNotFound (roomId : String)
  | move (playerId : String) (moveData : MoveData) (timestamp : Int)
  | playerLeft (playerId : String)
  | playerDisconnected (playerId : String)
  | error (code : String)
deriving DecidableEq, Repr

namespace BattleServer

/-- Room capacity constant maxPlayers. -/
def maxPlayers : Nat := 2

/-- BattleRoom class state (the ws handles in this.players are replaced by
the player ids used to address outgoing messages). -/
structure BattleRoom where
  id : String
  players : List String
  gameStarted : Bool
  currentTurn : Option String
  playerStates : List (String × PlayerState)
  moveHistory : List MoveRecord
  createdAt : Int
deriving DecidableEq, Repr

/-- Constructor new BattleRoom(id). -/
def newRoom (id : String) (now : Int) : BattleRoom :=
  { id := id, players := [], gameStarted := false, currentTurn := none
    playerStates := [], moveHistory := [], createdAt := now }

/-- Messages produced by a handler, as (recipient player id, message) pairs
in send order. -/
abbrev Outbox := List (String × ServerMessage)

/-- Method BattleRoom.broadcast: send to every member except the excluded
player (sockets are taken to be open). -/
def broadcast (room : BattleRoom) (msg : ServerMessage) (excludePlayerId : Option String) : Outbox :=
  (room.players.filter (fun p => some p ≠ excludePlayerId)).map (fun p => (p, msg))

/-- Method BattleRoom.startGame: mark started, set currentTurn to the first
player, broadcast GAME_START to everyone. -/
def startGame (room : BattleRoom) : BattleRoom × Outbox :=
  let room := { room with gameStarted := true, currentTurn := room.players[0]? }
  (room,
   broadcast room
     (ServerMessage.gameStart room.id room.players ((room.players[0]?).getD ""))
     none)

/-- Method BattleRoom.addPlayer: refuse when full, otherwise append the player
and start the game when the second slot fills; the Bool is the method's return
value. -/
def addPlayer (room : BattleRoom) (playerId : String) : BattleRoom × Outbox × Bool :=
  if room.players.length ≥ maxPlayers then
    (room, [], false)
  else
    let room := { room with
      players := room.players ++ [playerId]
      playerStates := room.playerStates ++ [(playerId, { score := 0, moves := 0, connected := true })] }
    if room.players.length = maxPlayers then
      let (room, out) := startGame room
      (room, out, true)
    else
      (room, [], true)

/-- Method BattleRoom.handleMove: append to the move log and broadcast the
MOVE to everyone but the sender.  The room performs no turn or membership
check. -/
def roomHandleMove (room : BattleRoom) (playerId : String) (moveData : MoveData) (now : Int) :
    BattleRoom × Outbox :=
  ({ room with moveHistory := room.moveHistory ++ [{ playerId := playerId, move := moveData, timestamp := now }] },
   broadcast room (ServerMessage.move playerId moveData now) (some playerId))

/-- Method BattleRoom.isFull. -/
def isFull (room : BattleRoom) : Bool :=
  room.players.length ≥ maxPlayers

/-- Method BattleRoom.removePlayer: splice out the first entry with this id
and drop the id from playerStates. -/
def removePlayer (room : BattleRoom) (playerId : String) : BattleRoom :=
  match room.players.indexOf? playerId with
  | none => room
  | some _ =>
    { room with
      players := room.players.erase playerId
      playerStates := room.playerStates.filter (fun p => p.1 ≠ playerId) }

/-- Matchmaking ticket pushed by handleMatchmakingRequest. -/
structure Ticket where
  playerId : String
  timestamp : Int
deriving DecidableEq, Repr

/-- BattleServer state: the room map (as an association list in insertion
order), connected clients, and the matchmaking queue. -/
structure ServerState where
  rooms : List (String × BattleRoom)
  clients : List String
  matchmakingQueue : List Ticket
deriving DecidableEq, Repr

/-- Look a room up by id (this.rooms.get). -/
def lookupRoom (rooms : List (String × BattleRoom)) (roomId : String) : Option BattleRoom :=
  (rooms.find? (fun p => p.1 = roomId)).map (fun p => p.2)

/-- Store a room back under its id (this.rooms.set on an existing key). -/
def updateRoom (rooms : List (String × BattleRoom)) (roomId : String) (room : BattleRoom) :
    List (String × BattleRoom) :=
  rooms.map (fun p => if p.1 = roomId then (roomId, room) else p)

/-- Method BattleServer.handleJoinRoom. -/
def handleJoinRoom (st : ServerState) (joinerId roomId : String) : ServerState × Outbox :=
  match lookupRoom st.rooms roomId with
  | none => (st, [(joinerId, ServerMessage.roomNotFound roomId)])
  | some room =>
    if isFull room then
      (st, [(joinerId, ServerMessage.roomFull roomId)])
    else
      let (room, startOut, _ok) := addPlayer room joinerId
      let opponent := room.players.find? (fun p => p ≠ joinerId)
      let joinerOut : Outbox :=
        [(joinerId, ServerMessage.roomJoined roomId opponent room.players.length)]
      let opponentOut : Outbox :=
        match opponent with
        | some o => [(o, ServerMessage.roomJoined roomId (some joinerId) room.players.length)]
        | none => []
      ({ st with rooms := updateRoom st.rooms roomId room },
       startOut ++ joinerOut ++ opponentOut)

/-- Method BattleServer.handleMove: look the room up and delegate; a MOVE for
an unknown room is silently ignored. -/
def handleMove (st : ServerState) (senderId roomId : String) (moveData : MoveData) (now : Int) :
    ServerState × Outbox :=
  match lookupRoom st.rooms roomId with
  | none => (st, [])
  | some room =>
    let (room, out) := roomHandleMove room senderId moveData now
    ({ st with rooms := updateRoom st.rooms roomId room }, out)

/-- Remove the first ticket of a player from the matchmaking queue
(findIndex followed by splice(index, 1)). -/
def removeFromQueue (queue : List Ticket) (playerId : String) : List Ticket :=
  match queue with
  | [] => []
  | t :: ts => if t.playerId = playerId then ts else t :: removeFromQueue ts playerId

/-- Method BattleServer.handleDisconnect: drop the client, remove its
matchmaking ticket, and for every room containing the player broadcast
PLAYER_DISCONNECTED to the others, remove the player, and delete the room if
it became empty. -/
def handleDisconnect (st : ServerState) (playerId : String) : ServerState × Outbox :=
  let clients := st.clients.filter (fun c => c ≠ playerId)
  let queue := removeFromQueue st.matchmakingQueue playerId
  let step : (String × BattleRoom) → Option (String × BattleRoom) × Outbox := fun entry =>
    if entry.2.players.contains playerId then
      let out := broadcast entry.2 (ServerMessage.playerDisconnected playerId) (some playerId)
      let room := removePlayer entry.2 playerId
      (if room.players.isEmpty then none else some (entry.1, room), out)
    else
      (some entry, [])
  let processed := st.rooms.map step
  ({ rooms := processed.filterMap (fun p => p.1)
     clients := clients
     matchmakingQueue := queue },
   (processed.map (fun p => p.2)).flatten)

/-- Method BattleServer.processMatchmakingQueue: while at least two tickets
remain, pop the two oldest, build a room for them via addPlayer, and notify
both with the matchmaker's GAME_START shape.  Room ids (Date.now plus a
random suffix in the source) are supplied by freshId, indexed per created
room; the result is (created rooms, messages, remaining queue). -/
def processMatchmakingQueue (freshId : Nat → String) (now : Int) :
    Nat → List Ticket → List (String × BattleRoom) × Outbox × List Ticket
  | k, t1 :: t2 :: rest =>
    let roomId := freshId k
    let room := newRoom roomId now
    let (room, out1, _) := addPlayer room t1.playerId
    let (room, out2, _) := addPlayer room t2.playerId
    let notify : Outbox :=
      [(t1.playerId, ServerMessage.gameStartMatch roomId t2.playerId),
       (t2.playerId, ServerMessage.gameStartMatch roomId t1.playerId)]
    let (rooms, out, remaining) := processMatchmakingQueue freshId now (k + 1) rest
    ((roomId, room) :: rooms, out1 ++ out2 ++ notify ++ out, remaining)
  | _, queue => ([], [], queue)

end BattleServer

namespace StateSynchronizer

/-- Last value written to a location by a change list, where wr extracts the
value a single change writes there (none when it leaves it alone); writes
later in the list take priority, as later loop iterations overwrite earlier
ones. -/
def lastWrite {α : Type} (wr : StateChange → Option α) : List StateChange → Option α
  | [] => none
  | c :: cs => (lastWrite wr cs).or (wr c)

/-- Value a change writes to playerScore. -/
def wrPlayerScore (c : StateChange) : Option Int :=
  match c.ctype, c.path with
  | .SCORE_UPDATE, .playerScore => some c.value.asInt
  | _, _ => none

/-- Value a change writes to opponentScore. -/
def wrOpponentScore (c : StateChange) : Option Int :=
  match c.ctype, c.path with
  | .SCORE_UPDATE, .opponentScore => some c.value.asInt
  | _, _ => none

/-- Value a change writes to playerMoves. -/
def wrPlayerMoves (c : StateChange) : Option Int :=
  match c.ctype, c.path with
  | .MOVES_UPDATE, .playerMoves => some c.value.asInt
  | _, _ => none

/-- Value a change writes to opponentMoves. -/
def wrOpponentMoves (c : StateChange) : Option Int :=
  match c.ctype, c.path with
  | .MOVES_UPDATE, .opponentMoves => some c.value.asInt
  | _, _ => none

/-- Value a change writes to eventProgress. -/
def wrEventProgress (c : StateChange) : Option Int :=
  match c.ctype, c.path with
  | .EVENT_UPDATE, .eventProgress => some c.value.asInt
  | _, _ => none

/-- Value a change writes to activeEvents. -/
def wrActiveEvents (c : StateChange) : Option (List GameEventType) :=
  match c.ctype, c.path with
  | .EVENT_UPDATE, .activeEvents => some c.value.asEvents
  | _, _ => none

/-- Value a change writes to currentTurn (a TURN_UPDATE writes it regardless
of its path, as in the source). -/
def wrCurrentTurn (c : StateChange) : Option String :=
  match c.ctype with
  | .TURN_UPDATE => some c.value.asStr
  | _ => none

/-- Value a change writes to one grid cell. -/
def wrCell (sel : GridSel) (r c : Nat) (ch : StateChange) : Option CandyType :=
  match ch.ctype, ch.path with
  | .GRID_UPDATE, .cell sel' r' c' =>
    if sel' = sel ∧ r' = r ∧ c' = c then some ch.value.asCand else none
  | _, _ => none

end StateSynchronizer

/-- Grids of the claimed fixed 8 x 8 shape (the dimensions hard-coded by
ConflictResolver.generateCompensationMoves and mergeGrids). -/
def dims8 (s : StateSnapshot) : Prop :=
  s.playerGrid.map List.length = List.replicate 8 8 ∧
  s.opponentGrid.map List.length = List.replicate 8 8

instance (s : StateSnapshot) : Decidable (dims8 s) := by
  unfold dims8; infer_instance

/-- Positions of the 8 x 8 player-grid cells on which two grids disagree, in
the row-major order generateCompensationMoves scans them. -/
def diffCells8 (g1 g2 : Grid) : List (Nat × Nat) :=
  (List.range 8).flatMap (fun row =>
    ((List.range 8).filter (fun col => cellAt g1 row col ≠ cellAt g2 row col)).map
      (fun col => (row, col)))

/-- Everything the MERGE strategy is claimed to guarantee about its result. -/
def mergeResolutionSpec (l r : StateSnapshot) (res : ResolutionResult) : Prop :=
  res.success = true ∧
  res.rollbackRequired = false ∧
  res.resolvedState.playerScore = max l.playerScore r.playerScore ∧
  res.resolvedState.opponentScore = max l.opponentScore r.opponentScore ∧
  res.resolvedState.playerMoves = max l.playerMoves r.playerMoves ∧
  res.resolvedState.opponentMoves = max l.opponentMoves r.opponentMoves ∧
  res.resolvedState.eventProgress = max l.eventProgress r.eventProgress ∧
  res.resolvedState.version = max l.version r.version + 1 ∧
  (∃ s, (s = l ∨ s = r) ∧ l.timestamp ≤ s.timestamp ∧ r.timestamp ≤ s.timestamp ∧
    res.resolvedState.timestamp = s.timestamp ∧
    res.resolvedState.currentTurn = s.currentTurn ∧
    res.resolvedState.activeEvents = s.activeEvents) ∧
  (∀ row col, row < 8 → col < 8 →
    cellAt res.resolvedState.playerGrid row col =
      some (if (cellAt l.playerGrid row col).getD CandyType.EMPTY ≠ CandyType.EMPTY
            then (cellAt l.playerGrid row col).getD CandyType.EMPTY
            else (cellAt r.opponentGrid row col).getD CandyType.EMPTY)) ∧
  (∀ row col, row < 8 → col < 8 →
    cellAt res.resolvedState.opponentGrid row col =
      some (if (cellAt l.opponentGrid row col).getD CandyType.EMPTY ≠ CandyType.EMPTY
            then (cellAt l.opponentGrid row col).getD CandyType.EMPTY
            else (cellAt r.playerGrid row col).getD CandyType.EMPTY))

/-- An 8 x 8 grid filled with one candy. -/
def grid8 (c : CandyType) : Grid :=
  List.replicate 8 (List.replicate 8 c)

/-- An 8 x 8 grid whose first row starts with seven BLUE cells. -/
def grid8seven : Grid :=
  (List.replicate 7 CandyType.BLUE ++ [CandyType.RED]) :: List.replicate 7 (List.replicate 8 CandyType.RED)

/-- A small sample snapshot used as a concrete witness input. -/
def sampleSnapshot : StateSnapshot :=
  { timestamp := 1000, version := 3
    playerGrid := [[CandyType.RED, CandyType.BLUE], [CandyType.GREEN, CandyType.EMPTY]]
    opponentGrid := [[CandyType.YELLOW, CandyType.PURPLE], [CandyType.RED, CandyType.RED]]
    playerScore := 120, opponentScore := 80
    playerMoves := 4, opponentMoves := 3
    eventProgress := 10
    activeEvents := [GameEventType.COMBO_BONUS]
    currentTurn := "player" }

/-- A sample delta based on sampleSnapshot's version. -/
def sampleDelta : StateDelta :=
  { version := 4, baseVersion := 3
    changes :=
      [{ ctype := .GRID_UPDATE, path := .cell .player 0 1, value := .cand CandyType.GREEN },
       { ctype := .GRID_UPDATE, path := .cell .opponent 1 0, value := .cand CandyType.EMPTY },
       { ctype := .SCORE_UPDATE, path := .playerScore, value := .num 150 },
       { ctype := .MOVES_UPDATE, path := .opponentMoves, value := .num 4 },
       { ctype := .EVENT_UPDATE, path := .activeEvents, value := .events [] },
       { ctype := .TURN_UPDATE, path := .currentTurn, value := .str "opponent" }]
    timestamp := 2000 }

/-- HYBRID-mode synchronizer state with totalSyncs = 9 whose pending delta
holds 12 changes (the previous and current snapshots disagree on 12 cells). -/
def hybridState12 : StateSynchronizer.State :=
  { currentSnapshot := some { sampleSnapshot with
      version := 4
      playerGrid := [List.replicate 6 CandyType.BLUE, List.replicate 6 CandyType.BLUE] }
    previousSnapshot := some { sampleSnapshot with
      playerGrid := [List.replicate 6 CandyType.RED, List.replicate 6 CandyType.RED] }
    syncMode := .HYBRID
    totalSyncs := 9 }

/-- Local snapshot for the detectConflict counterexample: its opponentGrid
disagrees with the remote playerGrid on 6 cells while every check the code
performs stays below its threshold. -/
def cxLocal : StateSnapshot :=
  { sampleSnapshot with
    playerGrid := [[CandyType.RED, CandyType.RED, CandyType.RED],
                   [CandyType.RED, CandyType.RED, CandyType.RED],
                   [CandyType.RED, CandyType.RED, CandyType.RED]]
    opponentGrid := [[CandyType.BLUE, CandyType.BLUE, CandyType.BLUE],
                     [CandyType.BLUE, CandyType.BLUE, CandyType.BLUE],
                     [CandyType.RED, CandyType.RED, CandyType.RED]] }

/-- Remote snapshot for the detectConflict counterexample. -/
def cxRemote : StateSnapshot :=
  { cxLocal with
    playerGrid := [[CandyType.GREEN, CandyType.GREEN, CandyType.GREEN],
                   [CandyType.GREEN, CandyType.GREEN, CandyType.GREEN],
                   [CandyType.RED, CandyType.RED, CandyType.RED]]
    opponentGrid := cxLocal.playerGrid }

/-- Local snapshot with an 8 x 8 player grid for the SERVER_AUTHORITATIVE and
MERGE witnesses. -/
def snapLocal8 : StateSnapshot :=
  { sampleSnapshot with
    playerGrid := grid8 CandyType.RED
    opponentGrid := grid8 CandyType.GREEN }

/-- Remote snapshot differing from snapLocal8 on exactly 7 player-grid cells. -/
def snapRemote8 : StateSnapshot :=
  { sampleSnapshot with
    timestamp := 500, version := 4
    playerGrid := grid8seven
    opponentGrid := grid8 CandyType.YELLOW
    playerScore := 90, opponentScore := 95
    playerMoves := 5, opponentMoves := 2
    eventProgress := 20
    activeEvents := []
    currentTurn := "opponent" }

/-- Reconnection-manager state whose last persisted snapshot is recent. -/
def recentSaveState : ReconnectionManager.State :=
  { stateSnapshots := [], lastSnapshotTime := 1000 }

/-- A sample recovery snapshot. -/
def sampleGameSnapshot : GameStateSnapshot :=
  { timestamp := 2000, roomId := "roomA", playerId := "A", opponentId := "B"
    state := sampleSnapshot, lastSyncedMove := 7 }

/-- A room holding only its creator, player A. -/
def roomWithA : BattleServer.BattleRoom :=
  { id := "roomA", players := ["A"], gameStarted := false, currentTurn := none
    playerStates := [("A", { score := 0, moves := 0, connected := true })]
    moveHistory := [], createdAt := 100 }

/-- A started room holding players A and B with the turn on A. -/
def roomAB : BattleServer.BattleRoom :=
  { id := "roomB", players := ["A", "B"], gameStarted := true, currentTurn := some "A"
    playerStates := [("A", { score := 0, moves := 0, connected := true }),
                     ("B", { score := 0, moves := 0, connected := true })]
    moveHistory := [], createdAt := 100 }

/-- Server state holding the one-player room and the full room. -/
def sampleServerState : BattleServer.ServerState :=
  { rooms := [("roomA", roomWithA), ("roomB", roomAB)]
    clients := ["A", "B", "C"]
    matchmakingQueue := [] }

/-- A sample move token. -/
def sampleMove : MoveData :=
  { posA := { row := 0, col := 0 }, posB := { row := 0, col := 1 }, moveNumber := 1 }

/-- Server state whose matchmaking queue holds three tickets. -/
def queuedServerState : BattleServer.ServerState :=
  { rooms := []
    clients := ["X", "Y", "Z"]
    matchmakingQueue := [{ playerId := "X", timestamp := 10 },
                         { playerId := "Y", timestamp := 20 },
                         { playerId := "Z", timestamp := 30 }] }

/-- Room-id supply standing in for generateRoomId. -/
def sampleFreshId (k : Nat) : String :=
  "room_" ++ toString k

attribute [ext] StateSnapshot

namespace StateSynchronizer

lemma lastWrite_cons {α : Type} (wr : StateChange → Option α) (c : StateChange)
    (cs : List StateChange) :
    lastWrite wr (c :: cs) = (lastWrite wr cs).or (wr c) := by
  rfl

lemma foldl_applyChange_proj {α : Type} (f : StateSnapshot → α) (wr : StateChange → Option α)
    (H : ∀ s c, f (applyChange s c) = (wr c).getD (f s)) :
    ∀ (cs : List StateChange) (s : StateSnapshot),
      f (cs.foldl applyChange s) = (lastWrite wr cs).getD (f s) := by
  intro cs
  induction cs with
  | nil => intro s; rfl
  | cons c cs ih =>
    intro s
    rw [List.foldl_cons, ih, H, lastWrite_cons]
    cases hlw : lastWrite wr cs <;> cases hwc : wr c <;> rfl

lemma foldl_applyChange_proj_guard {β : Type} (f : StateSnapshot → Option β)
    (wr : StateChange → Option β)
    (H : ∀ s c, f (applyChange s c) =
      (wr c).elim (f s) (fun v => if (f s).isSome then some v else none)) :
    ∀ (cs : List StateChange) (s : StateSnapshot),
      f (cs.foldl applyChange s) =
        (lastWrite wr cs).elim (f s) (fun v => if (f s).isSome then some v else none) := by
  have hinv : ∀ s c, (f (applyChange s c)).isSome = (f s).isSome := by
    intro s c
    rw [H]
    cases hwc : wr c
    · rfl
    · cases hfs : (f s).isSome <;> simp [hfs]
  intro cs
  induction cs with
  | nil => intro s; rfl
  | cons c cs ih =>
    intro s
    rw [List.foldl_cons, ih, hinv, H, lastWrite_cons]
    cases hlw : lastWrite wr cs <;> cases hwc : wr c <;>
      cases hfs : (f s).isSome <;> simp [hfs]

lemma applyChange_version (s : StateSnapshot) (c : StateChange) :
    (applyChange s c).version = s.version := by
  rcases c with ⟨t, p, v⟩
  cases t <;> cases p <;> try rfl
  all_goals (rename_i sel r c; cases sel <;> rfl)

lemma applyChange_timestamp (s : StateSnapshot) (c : StateChange) :
    (applyChange s c).timestamp = s.timestamp := by
  rcases c with ⟨t, p, v⟩
  cases t <;> cases p <;> try rfl
  all_goals (rename_i sel r c; cases sel <;> rfl)

lemma foldl_version : ∀ (cs : List StateChange) (s : StateSnapshot),
    (cs.foldl applyChange s).version = s.version := by
  intro cs
  induction cs with
  | nil => intro s; rfl
  | cons c cs ih => intro s; rw [List.foldl_cons, ih, applyChange_version]

lemma foldl_timestamp : ∀ (cs : List StateChange) (s : StateSnapshot),
    (cs.foldl applyChange s).timestamp = s.timestamp := by
  intro cs
  induction cs with
  | nil => intro s; rfl
  | cons c cs ih => intro s; rw [List.foldl_cons, ih, applyChange_timestamp]

lemma applyChange_playerScore (s : StateSnapshot) (c : StateChange) :
    (applyChange s c).playerScore = (wrPlayerScore c).getD s.playerScore := by
  rcases c with ⟨t, p, v⟩
  cases t <;> cases p <;> try rfl
  all_goals (rename_i sel r c; cases sel <;> rfl)

lemma applyChange_opponentScore (s : StateSnapshot) (c : StateChange) :
    (applyChange s c).opponentScore = (wrOpponentScore c).getD s.opponentScore := by
  rcases c with ⟨t, p, v⟩
  cases t <;> cases p <;> try rfl
  all_goals (rename_i sel r c; cases sel <;> rfl)

lemma applyChange_playerMoves (s : StateSnapshot) (c : StateChange) :
    (applyChange s c).playerMoves = (wrPlayerMoves c).getD s.playerMoves := by
  rcases c with ⟨t, p, v⟩
  cases t <;> cases p <;> try rfl
  all_goals (rename_i sel r c; cases sel <;> rfl)

lemma applyChange_opponentMoves (s : StateSnapshot) (c : StateChange) :
    (applyChange s c).opponentMoves = (wrOpponentMoves c).getD s.opponentMoves := by
  rcases c with ⟨t, p, v⟩
  cases t <;> cases p <;> try rfl
  all_goals (rename_i sel r c; cases sel <;> rfl)

lemma applyChange_eventProgress (s : StateSnapshot) (c : StateChange) :
    (applyChange s c).eventProgress = (wrEventProgress c).getD s.eventProgress := by
  rcases c with ⟨t, p, v⟩
  cases t <;> cases p <;> try rfl
  all_goals (rename_i sel r c; cases sel <;> rfl)

lemma applyChange_activeEvents (s : StateSnapshot) (c : StateChange) :
    (applyChange s c).activeEvents = (wrActiveEvents c).getD s.activeEvents := by
  rcases c with ⟨t, p, v⟩
  cases t <;> cases p <;> try rfl
  all_goals (rename_i sel r c; cases sel <;> rfl)

lemma applyChange_currentTurn (s : StateSnapshot) (c : StateChange) :
    (applyChange s c).currentTurn = (wrCurrentTurn c).getD s.currentTurn := by
  rcases c with ⟨t, p, v⟩
  cases t <;> cases p <;> try rfl
  all_goals (rename_i sel r c; cases sel <;> rfl)

end StateSynchronizer

namespace StateSynchronizer

lemma cellAt_setCell (g : Grid) (r c : Nat) (v : CandyType) (i j : Nat) :
    cellAt (setCell g r c v) i j =
      if i = r ∧ j = c ∧ (cellAt g r c).isSome then some v else cellAt g i j := by
  unfold setCell cellAt
  by_cases hr : r = i
  · subst hr
    by_cases hlen : r < g.length
    · cases hrow : g[r]? with
      | none => exact absurd (List.getElem?_eq_none_iff.mp hrow) (by omega)
      | some row =>
        rw [List.getElem?_set_self hlen]
        simp only [Option.getD_some, Option.some_bind]
        by_cases hc : c = j
        · subst hc
          by_cases hcl : c < row.length
          · rw [List.getElem?_set_self hcl]
            have hsome : row[c]?.isSome = true := by
              rw [List.getElem?_eq_getElem hcl]; rfl
            simp [hsome]
          · rw [List.set_eq_of_length_le (by omega)]
            have hn : row[c]? = none := List.getElem?_eq_none (by omega)
            simp [hn]
        · rw [List.getElem?_set_ne hc]
          have hng : ¬(True ∧ j = c ∧ (row[c]?).isSome = true) := by
            rintro ⟨-, h2, -⟩; exact hc h2.symm
          exact (if_neg hng).symm
    · rw [List.set_eq_of_length_le (by omega)]
      have hnone : g[r]? = none := List.getElem?_eq_none (by omega)
      simp [hnone]
  · rw [List.getElem?_set_ne hr]
    have : ¬(i = r ∧ j = c ∧ ((g[r]?).bind (fun row => row[c]?)).isSome = true) := by
      rintro ⟨h1, -, -⟩; exact hr h1.symm
    simp only [this, if_false]

lemma applyChange_cellP (r c : Nat) (s : StateSnapshot) (ch : StateChange) :
    cellAt (applyChange s ch).playerGrid r c =
      (wrCell .player r c ch).elim (cellAt s.playerGrid r c)
        (fun v => if (cellAt s.playerGrid r c).isSome then some v else none) := by
  rcases ch with ⟨t, p, v⟩
  cases t <;> cases p <;> try rfl
  rename_i sel rr cc
  cases sel
  case player =>
    show cellAt (setCell s.playerGrid rr cc v.asCand) r c = _
    rw [cellAt_setCell]
    by_cases h : rr = r ∧ cc = c
    · obtain ⟨h1, h2⟩ := h
      subst h1; subst h2
      have hw : wrCell .player rr cc { ctype := .GRID_UPDATE, path := .cell .player rr cc, value := v } =
          some v.asCand := by simp [wrCell]
      rw [hw]
      cases hcc : cellAt s.playerGrid rr cc <;> simp [hcc]
    · have hw : wrCell .player r c { ctype := .GRID_UPDATE, path := .cell .player rr cc, value := v } =
          none := by
        simp only [wrCell]
        rw [if_neg]
        rintro ⟨-, h1, h2⟩; exact h ⟨h1, h2⟩
      have hng2 : ¬(r = rr ∧ c = cc ∧ (cellAt s.playerGrid rr cc).isSome = true) := by
        rintro ⟨h1, h2, -⟩; exact h ⟨h1.symm, h2.symm⟩
      rw [hw, if_neg hng2]
      rfl
  case opponent =>
    show cellAt s.playerGrid r c = _
    have hw : wrCell .player r c { ctype := .GRID_UPDATE, path := .cell .opponent rr cc, value := v } =
        none := by
      simp only [wrCell]
      rw [if_neg]
      rintro ⟨h1, -, -⟩; exact GridSel.noConfusion h1
    rw [hw]
    rfl

lemma applyChange_cellO (r c : Nat) (s : StateSnapshot) (ch : StateChange) :
    cellAt (applyChange s ch).opponentGrid r c =
      (wrCell .opponent r c ch).elim (cellAt s.opponentGrid r c)
        (fun v => if (cellAt s.opponentGrid r c).isSome then some v else none) := by
  rcases ch with ⟨t, p, v⟩
  cases t <;> cases p <;> try rfl
  rename_i sel rr cc
  cases sel
  case opponent =>
    show cellAt (setCell s.opponentGrid rr cc v.asCand) r c = _
    rw [cellAt_setCell]
    by_cases h : rr = r ∧ cc = c
    · obtain ⟨h1, h2⟩ := h
      subst h1; subst h2
      have hw : wrCell .opponent rr cc { ctype := .GRID_UPDATE, path := .cell .opponent rr cc, value := v } =
          some v.asCand := by simp [wrCell]
      rw [hw]
      cases hcc : cellAt s.opponentGrid rr cc <;> simp [hcc]
    · have hw : wrCell .opponent r c { ctype := .GRID_UPDATE, path := .cell .opponent rr cc, value := v } =
          none := by
        simp only [wrCell]
        rw [if_neg]
        rintro ⟨-, h1, h2⟩; exact h ⟨h1, h2⟩
      have hng2 : ¬(r = rr ∧ c = cc ∧ (cellAt s.opponentGrid rr cc).isSome = true) := by
        rintro ⟨h1, h2, -⟩; exact h ⟨h1.symm, h2.symm⟩
      rw [hw, if_neg hng2]
      rfl
  case player =>
    show cellAt s.opponentGrid r c = _
    have hw : wrCell .opponent r c { ctype := .GRID_UPDATE, path := .cell .player rr cc, value := v } =
        none := by
      simp only [wrCell]
      rw [if_neg]
      rintro ⟨h1, -, -⟩; exact GridSel.noConfusion h1
    rw [hw]
    rfl

lemma shape_setCell (g : Grid) (rr cc : Nat) (v : CandyType) (i : Nat) :
    ((setCell g rr cc v)[i]?).map List.length = (g[i]?).map List.length := by
  unfold setCell
  by_cases hr : rr = i
  · subst hr
    by_cases hlen : rr < g.length
    · cases hrow : g[rr]? with
      | none => exact absurd (List.getElem?_eq_none_iff.mp hrow) (by omega)
      | some row =>
        rw [List.getElem?_set_self hlen]
        simp
    · rw [List.set_eq_of_length_le (by omega)]
  · rw [List.getElem?_set_ne hr]

lemma applyChange_shapeP (s : StateSnapshot) (ch : StateChange) (i : Nat) :
    (((applyChange s ch).playerGrid)[i]?).map List.length =
      ((s.playerGrid)[i]?).map List.length := by
  rcases ch with ⟨t, p, v⟩
  cases t <;> cases p <;> try rfl
  rename_i sel rr cc
  cases sel
  · exact shape_setCell s.playerGrid rr cc v.asCand i
  · rfl

lemma applyChange_shapeO (s : StateSnapshot) (ch : StateChange) (i : Nat) :
    (((applyChange s ch).opponentGrid)[i]?).map List.length =
      ((s.opponentGrid)[i]?).map List.length := by
  rcases ch with ⟨t, p, v⟩
  cases t <;> cases p <;> try rfl
  rename_i sel rr cc
  cases sel
  · rfl
  · exact shape_setCell s.opponentGrid rr cc v.asCand i

lemma foldl_shapeP : ∀ (cs : List StateChange) (s : StateSnapshot) (i : Nat),
    (((cs.foldl applyChange s).playerGrid)[i]?).map List.length =
      ((s.playerGrid)[i]?).map List.length := by
  intro cs
  induction cs with
  | nil => intro s i; rfl
  | cons c cs ih => intro s i; rw [List.foldl_cons, ih, applyChange_shapeP]

lemma foldl_shapeO : ∀ (cs : List StateChange) (s : StateSnapshot) (i : Nat),
    (((cs.foldl applyChange s).opponentGrid)[i]?).map List.length =
      ((s.opponentGrid)[i]?).map List.length := by
  intro cs
  induction cs with
  | nil => intro s i; rfl
  | cons c cs ih => intro s i; rw [List.foldl_cons, ih, applyChange_shapeO]

end StateSynchronizer

lemma grid_ext {g1 g2 : Grid}
    (hshape : ∀ i : Nat, (g1[i]?).map List.length = (g2[i]?).map List.length)
    (hcell : ∀ r c, cellAt g1 r c = cellAt g2 r c) : g1 = g2 := by
  apply List.ext_getElem?
  intro i
  cases h1 : g1[i]? with
  | none =>
    cases h2 : g2[i]? with
    | none => rfl
    | some row2 =>
      have := hshape i
      rw [h1, h2] at this
      simp at this
  | some row1 =>
    cases h2 : g2[i]? with
    | none =>
      have := hshape i
      rw [h1, h2] at this
      simp at this
    | some row2 =>
      have hrow : row1 = row2 := by
        apply List.ext_getElem?
        intro c
        have hc := hcell i c
        simp only [cellAt, h1, h2, Option.bind_some] at hc
        exact hc
      rw [hrow]

namespace StateSynchronizer

lemma proj_idem {α : Type} (f : StateSnapshot → α) (wr : StateChange → Option α)
    (H : ∀ s c, f (applyChange s c) = (wr c).getD (f s))
    (cs : List StateChange) (s : StateSnapshot) :
    f (cs.foldl applyChange (cs.foldl applyChange s)) = f (cs.foldl applyChange s) := by
  rw [foldl_applyChange_proj f wr H cs (cs.foldl applyChange s),
      foldl_applyChange_proj f wr H cs s]
  cases lastWrite wr cs <;> rfl

lemma proj_guard_idem {β : Type} (f : StateSnapshot → Option β) (wr : StateChange → Option β)
    (H : ∀ s c, f (applyChange s c) =
      (wr c).elim (f s) (fun v => if (f s).isSome then some v else none))
    (cs : List StateChange) (s : StateSnapshot) :
    f (cs.foldl applyChange (cs.foldl applyChange s)) = f (cs.foldl applyChange s) := by
  rw [foldl_applyChange_proj_guard f wr H cs (cs.foldl applyChange s),
      foldl_applyChange_proj_guard f wr H cs s]
  cases hlw : lastWrite wr cs
  · rfl
  · cases hfs : (f s).isSome <;> simp [hfs]

lemma foldl_applyChange_idem (cs : List StateChange) (s : StateSnapshot) :
    cs.foldl applyChange (cs.foldl applyChange s) = cs.foldl applyChange s := by
  refine StateSnapshot.ext ?_ ?_ ?_ ?_ ?_ ?_ ?_ ?_ ?_ ?_ ?_
  · exact foldl_timestamp cs (cs.foldl applyChange s)
  · exact foldl_version cs (cs.foldl applyChange s)
  · refine grid_ext (fun i => foldl_shapeP cs (cs.foldl applyChange s) i) (fun r c => ?_)
    exact proj_guard_idem (fun st => cellAt st.playerGrid r c) (wrCell .player r c)
      (applyChange_cellP r c) cs s
  · refine grid_ext (fun i => foldl_shapeO cs (cs.foldl applyChange s) i) (fun r c => ?_)
    exact proj_guard_idem (fun st => cellAt st.opponentGrid r c) (wrCell .opponent r c)
      (applyChange_cellO r c) cs s
  · exact proj_idem (fun st => st.playerScore) wrPlayerScore applyChange_playerScore cs s
  · exact proj_idem (fun st => st.opponentScore) wrOpponentScore applyChange_opponentScore cs s
  · exact proj_idem (fun st => st.playerMoves) wrPlayerMoves applyChange_playerMoves cs s
  · exact proj_idem (fun st => st.opponentMoves) wrOpponentMoves applyChange_opponentMoves cs s
  · exact proj_idem (fun st => st.eventProgress) wrEventProgress applyChange_eventProgress cs s
  · exact proj_idem (fun st => st.activeEvents) wrActiveEvents applyChange_activeEvents cs s
  · exact proj_idem (fun st => st.currentTurn) wrCurrentTurn applyChange_currentTurn cs s

end StateSynchronizer

/-- C1: for every snapshot S and delta D with D.baseVersion = S.version,
applyDelta(S, D) has version D.version and timestamp D.timestamp, and
applying D a second time to the result yields the same snapshot (applyDelta
is idempotent given matching versions). -/
theorem applyDelta_version_timestamp_idempotent (s : StateSnapshot) (d : StateDelta)
    (h : d.baseVersion = s.version) :
    (StateSynchronizer.applyDelta s d).version = d.version ∧
    (StateSynchronizer.applyDelta s d).timestamp = d.timestamp ∧
    StateSynchronizer.applyDelta (StateSynchronizer.applyDelta s d) d =
      StateSynchronizer.applyDelta s d := by
  unfold StateSynchronizer.applyDelta
  refine ⟨?_, ?_, ?_⟩
  · rw [StateSynchronizer.foldl_version]
  · rw [StateSynchronizer.foldl_timestamp]
  · set t := d.changes.foldl StateSynchronizer.applyChange
      { s with version := d.version, timestamp := d.timestamp } with ht
    have hv : t.version = d.version := by rw [ht, StateSynchronizer.foldl_version]
    have hts : t.timestamp = d.timestamp := by rw [ht, StateSynchronizer.foldl_timestamp]
    have hre : { t with version := d.version, timestamp := d.timestamp } = t := by
      rw [← hv, ← hts]
    rw [hre]
    exact StateSynchronizer.foldl_applyChange_idem d.changes _

/-- Witness for C1 at a concrete snapshot and matching delta. -/
theorem applyDelta_version_timestamp_idempotent_witness :
    sampleDelta.baseVersion = sampleSnapshot.version ∧
    ((StateSynchronizer.applyDelta sampleSnapshot sampleDelta).version = sampleDelta.version ∧
     (StateSynchronizer.applyDelta sampleSnapshot sampleDelta).timestamp = sampleDelta.timestamp ∧
     StateSynchronizer.applyDelta (StateSynchronizer.applyDelta sampleSnapshot sampleDelta)
         sampleDelta =
       StateSynchronizer.applyDelta sampleSnapshot sampleDelta) :=
  ⟨by decide, applyDelta_version_timestamp_idempotent sampleSnapshot sampleDelta (by decide)⟩

/-- C3: shouldUseDeltaSync is false in FULL mode and true in DELTA mode; in
HYBRID mode it is false exactly when there is no previous snapshot, or
totalSyncs is a multiple of 10, or the generated delta would hold more than
50 change records. -/
theorem shouldUseDeltaSync_characterization (now : Int) (st : StateSynchronizer.State) :
    (st.syncMode = SyncMode.FULL → StateSynchronizer.shouldUseDeltaSync now st = false) ∧
    (st.syncMode = SyncMode.DELTA → StateSynchronizer.shouldUseDeltaSync now st = true) ∧
    (st.syncMode = SyncMode.HYBRID →
      (StateSynchronizer.shouldUseDeltaSync now st = false ↔
        st.previousSnapshot = none ∨ st.totalSyncs % 10 = 0 ∨
          StateSynchronizer.maxDeltaSize < StateSynchronizer.deltaChangeCount now st)) := by
  refine ⟨fun h => ?_, fun h => ?_, fun h => ?_⟩
  · simp [StateSynchronizer.shouldUseDeltaSync, h]
  · simp [StateSynchronizer.shouldUseDeltaSync, h]
  · unfold StateSynchronizer.shouldUseDeltaSync
    rw [h]
    cases hp : st.previousSnapshot with
    | none => simp
    | some p =>
      simp only [Option.some_ne_none, false_or]
      by_cases hmod : st.totalSyncs % StateSynchronizer.snapshotInterval = 0
      · simp [hmod, StateSynchronizer.snapshotInterval] at hmod ⊢
      · have hmod10 : ¬(st.totalSyncs % 10 = 0) := hmod
        simp only [if_neg hmod]
        cases hd : StateSynchronizer.generateDeltaS now st with
        | none =>
          simp [StateSynchronizer.deltaChangeCount, hd, hmod10,
            StateSynchronizer.maxDeltaSize]
        | some d =>
          simp [StateSynchronizer.deltaChangeCount, hd, hmod10,
            StateSynchronizer.maxDeltaSize]

/-- Witness for C3 at a HYBRID state with totalSyncs = 9 and a 12-change
pending delta (which therefore goes out as a delta). -/
theorem shouldUseDeltaSync_characterization_witness :
    hybridState12.syncMode = SyncMode.HYBRID ∧
    (StateSynchronizer.shouldUseDeltaSync 0 hybridState12 = false ↔
      hybridState12.previousSnapshot = none ∨ hybridState12.totalSyncs % 10 = 0 ∨
        StateSynchronizer.maxDeltaSize < StateSynchronizer.deltaChangeCount 0 hybridState12) :=
  ⟨rfl, (shouldUseDeltaSync_characterization 0 hybridState12).2.2 rfl⟩

/-- C10: under the LATEST_TIMESTAMP policy, equal timestamps resolve to the
local snapshot, with no rollback and no compensation moves. -/
theorem resolveLatestTimestamp_tie_prefers_local (isServerAuthority : Bool)
    (conflict : ConflictType) (l r : StateSnapshot) (h : l.timestamp = r.timestamp) :
    (ConflictResolver.resolveConflict .LATEST_TIMESTAMP isServerAuthority conflict l r).success
        = true ∧
    (ConflictResolver.resolveConflict .LATEST_TIMESTAMP isServerAuthority conflict l r).resolvedState
        = l ∧
    (ConflictResolver.resolveConflict .LATEST_TIMESTAMP isServerAuthority conflict l r).rollbackRequired
        = false ∧
    (ConflictResolver.resolveConflict .LATEST_TIMESTAMP isServerAuthority conflict l r).compensationMoves
        = [] := by
  have hle : r.timestamp ≤ l.timestamp := le_of_eq h.symm
  simp [ConflictResolver.resolveConflict, ConflictResolver.resolveLatestTimestamp, hle]

/-- Witness for C10 at two distinct concrete snapshots with equal timestamps. -/
theorem resolveLatestTimestamp_tie_prefers_local_witness :
    sampleSnapshot.timestamp = snapLocal8.timestamp ∧
    ((ConflictResolver.resolveConflict .LATEST_TIMESTAMP false .STATE_DIVERGENCE sampleSnapshot
        snapLocal8).success = true ∧
     (ConflictResolver.resolveConflict .LATEST_TIMESTAMP false .STATE_DIVERGENCE sampleSnapshot
        snapLocal8).resolvedState = sampleSnapshot ∧
     (ConflictResolver.resolveConflict .LATEST_TIMESTAMP false .STATE_DIVERGENCE sampleSnapshot
        snapLocal8).rollbackRequired = false ∧
     (ConflictResolver.resolveConflict .LATEST_TIMESTAMP false .STATE_DIVERGENCE sampleSnapshot
        snapLocal8).compensationMoves = []) :=
  ⟨rfl, resolveLatestTimestamp_tie_prefers_local false .STATE_DIVERGENCE sampleSnapshot
    snapLocal8 rfl⟩

/-- C7 counterexample: a saveSnapshot call made 1 s after the previous save
does not append the snapshot to the in-memory ring; the whole save is
dropped, not just the durable write. -/
theorem saveSnapshot_ring_append_counterexample :
    2000 - recentSaveState.lastSnapshotTime < ReconnectionManager.snapshotInterval ∧
    (ReconnectionManager.saveSnapshot recentSaveState 2000 sampleGameSnapshot).1.stateSnapshots ≠
      recentSaveState.stateSnapshots ++ [sampleGameSnapshot] := by
  decide

/-- C7 (amended): a saveSnapshot call within 5 s of the last saved snapshot
is dropped entirely (no ring append, no durable write); otherwise the
snapshot is appended to the ring, which keeps at most the 10 most recent
entries, and is written to the durable store. -/
theorem saveSnapshot_spec (st : ReconnectionManager.State) (now : Int)
    (snapshot : GameStateSnapshot) (h : st.stateSnapshots.length ≤ 10) :
    (ReconnectionManager.saveSnapshot st now snapshot).1.stateSnapshots =
      (if now - st.lastSnapshotTime < 5000 then st.stateSnapshots
       else lastN 10 (st.stateSnapshots ++ [snapshot])) ∧
    (ReconnectionManager.saveSnapshot st now snapshot).2 =
      (if now - st.lastSnapshotTime < 5000 then none else some snapshot) ∧
    (ReconnectionManager.saveSnapshot st now snapshot).1.lastSnapshotTime =
      (if now - st.lastSnapshotTime < 5000 then st.lastSnapshotTime else now) ∧
    (ReconnectionManager.saveSnapshot st now snapshot).1.stateSnapshots.length ≤ 10 := by
  unfold ReconnectionManager.saveSnapshot
  by_cases hc : now - st.lastSnapshotTime < 5000
  · have hc2 : now - st.lastSnapshotTime < ReconnectionManager.snapshotInterval := hc
    simp [hc2, hc, h]
  · have hc2 : ¬(now - st.lastSnapshotTime < ReconnectionManager.snapshotInterval) := hc
    have hring : (if (st.stateSnapshots ++ [snapshot]).length > ReconnectionManager.maxSnapshots
          then (st.stateSnapshots ++ [snapshot]).tail
          else st.stateSnapshots ++ [snapshot]) =
        lastN 10 (st.stateSnapshots ++ [snapshot]) := by
      unfold lastN ReconnectionManager.maxSnapshots
      by_cases hlen : (st.stateSnapshots ++ [snapshot]).length > 10
      · have h10 : st.stateSnapshots.length = 10 := by
          simp [List.length_append] at hlen
          omega
        have hlen2 : (st.stateSnapshots ++ [snapshot]).length = 11 := by
          simp [List.length_append, h10]
        rw [if_pos hlen, hlen2]
        norm_num
      · rw [if_neg hlen]
        have : (st.stateSnapshots ++ [snapshot]).length - 10 = 0 := by omega
        rw [this, List.drop_zero]
    have hlenle : (lastN 10 (st.stateSnapshots ++ [snapshot])).length ≤ 10 := by
      unfold lastN
      rw [List.length_drop]
      omega
    refine ⟨?_, ?_, ?_, ?_⟩
    · simp only [if_neg hc2, if_neg hc]
      exact hring
    · simp [if_neg hc2, if_neg hc]
    · simp [if_neg hc2, if_neg hc]
    · simp only [if_neg hc2]
      rw [hring]
      exact hlenle

/-- Witness for the amended C7 at a concrete state and a call outside the
5-second window. -/
theorem saveSnapshot_spec_witness :
    recentSaveState.stateSnapshots.length ≤ 10 ∧
    ((ReconnectionManager.saveSnapshot recentSaveState 7000 sampleGameSnapshot).1.stateSnapshots =
      (if (7000 : Int) - recentSaveState.lastSnapshotTime < 5000 then recentSaveState.stateSnapshots
       else lastN 10 (recentSaveState.stateSnapshots ++ [sampleGameSnapshot])) ∧
     (ReconnectionManager.saveSnapshot recentSaveState 7000 sampleGameSnapshot).2 =
      (if (7000 : Int) - recentSaveState.lastSnapshotTime < 5000 then none
       else some sampleGameSnapshot) ∧
     (ReconnectionManager.saveSnapshot recentSaveState 7000 sampleGameSnapshot).1.lastSnapshotTime =
      (if (7000 : Int) - recentSaveState.lastSnapshotTime < 5000 then
        recentSaveState.lastSnapshotTime
       else 7000) ∧
     (ReconnectionManager.saveSnapshot recentSaveState 7000 sampleGameSnapshot).1.stateSnapshots.length
        ≤ 10) :=
  ⟨by decide, saveSnapshot_spec recentSaveState 7000 sampleGameSnapshot (by decide)⟩

/-- C4 (amended): detectConflict checks, in order, VERSION_MISMATCH when the
versions differ by more than 1, then GRID_INCONSISTENCY when more than 5
cells differ between the local playerGrid and the remote opponentGrid (this
pair only - the symmetric pair is not compared), then SCORE_MISMATCH when the
score sums differ by more than 100, then STATE_DIVERGENCE when the timestamps
differ by more than 10000 ms, and otherwise reports no conflict. -/
theorem detectConflict_characterization (l r : StateSnapshot) :
    (ConflictResolver.detectConflict l r = some .VERSION_MISMATCH ↔
      1 < (l.version - r.version).natAbs) ∧
    (ConflictResolver.detectConflict l r = some .GRID_INCONSISTENCY ↔
      (l.version - r.version).natAbs ≤ 1 ∧
      5 < ConflictResolver.compareGrids l.playerGrid r.opponentGrid) ∧
    (ConflictResolver.detectConflict l r = some .SCORE_MISMATCH ↔
      (l.version - r.version).natAbs ≤ 1 ∧
      ConflictResolver.compareGrids l.playerGrid r.opponentGrid ≤ 5 ∧
      100 < ((l.playerScore + l.opponentScore) - (r.playerScore + r.opponentScore)).natAbs) ∧
    (ConflictResolver.detectConflict l r = some .STATE_DIVERGENCE ↔
      (l.version - r.version).natAbs ≤ 1 ∧
      ConflictResolver.compareGrids l.playerGrid r.opponentGrid ≤ 5 ∧
      ((l.playerScore + l.opponentScore) - (r.playerScore + r.opponentScore)).natAbs ≤ 100 ∧
      10000 < (l.timestamp - r.timestamp).natAbs) ∧
    (ConflictResolver.detectConflict l r = none ↔
      (l.version - r.version).natAbs ≤ 1 ∧
      ConflictResolver.compareGrids l.playerGrid r.opponentGrid ≤ 5 ∧
      ((l.playerScore + l.opponentScore) - (r.playerScore + r.opponentScore)).natAbs ≤ 100 ∧
      (l.timestamp - r.timestamp).natAbs ≤ 10000) := by
  refine ⟨?_, ?_, ?_, ?_, ?_⟩ <;>
    unfold ConflictResolver.detectConflict <;>
    split_ifs with h1 h2 h3 h4 <;>
    simp_all

/-- C4 counterexample: snapshots whose symmetric grid pair (local
opponentGrid vs remote playerGrid) differs in 6 cells while every check the
code performs stays below threshold; the claimed GRID_INCONSISTENCY is not
reported. -/
theorem detectConflict_symmetric_pair_counterexample :
    (cxLocal.version - cxRemote.version).natAbs ≤ 1 ∧
    5 < ConflictResolver.compareGrids cxLocal.opponentGrid cxRemote.playerGrid ∧
    ConflictResolver.detectConflict cxLocal cxRemote ≠ some .GRID_INCONSISTENCY ∧
    ConflictResolver.detectConflict cxLocal cxRemote = none := by
  decide

lemma compensationRow_eq (cur tgt : StateSnapshot) (row : Nat) (l : List Nat) :
    (l.filterMap fun col =>
        if cellAt cur.playerGrid row col ≠ cellAt tgt.playerGrid row col then
          some ({ position := { row := row, col := col }
                  oldValue := cellAt cur.playerGrid row col
                  newValue := cellAt tgt.playerGrid row col
                  reason := "Grid synchronization" } : CompensationMove)
        else none) =
      ((l.filter fun col => cellAt cur.playerGrid row col ≠ cellAt tgt.playerGrid row col).map
        (fun col =>
          { position := { row := row, col := col }
            oldValue := cellAt cur.playerGrid row col
            newValue := cellAt tgt.playerGrid row col
            reason := "Grid synchronization" })) := by
  induction l with
  | nil => rfl
  | cons a l ih =>
    by_cases h : cellAt cur.playerGrid row a ≠ cellAt tgt.playerGrid row a
    · simp [List.filterMap_cons, List.filter_cons, h]
      simpa using ih
    · simp [List.filterMap_cons, List.filter_cons, h]
      simpa using ih

lemma generateCompensationMoves_eq (cur tgt : StateSnapshot) :
    ConflictResolver.generateCompensationMoves cur tgt =
      (diffCells8 cur.playerGrid tgt.playerGrid).map (fun rc =>
        { position := { row := rc.1, col := rc.2 }
          oldValue := cellAt cur.playerGrid rc.1 rc.2
          newValue := cellAt tgt.playerGrid rc.1 rc.2
          reason := "Grid synchronization" }) := by
  unfold ConflictResolver.generateCompensationMoves diffCells8
  rw [List.map_flatMap]
  congr 1
  funext row
  rw [compensationRow_eq cur tgt row (List.range 8), List.map_map]
  rfl

lemma diffCells8_mem {g1 g2 : Grid} {rc : Nat × Nat} (h : rc ∈ diffCells8 g1 g2) :
    rc.1 < 8 ∧ rc.2 < 8 ∧ cellAt g1 rc.1 rc.2 ≠ cellAt g2 rc.1 rc.2 := by
  unfold diffCells8 at h
  rw [List.mem_flatMap] at h
  obtain ⟨row, hrow, hmem⟩ := h
  rw [List.mem_map] at hmem
  obtain ⟨col, hcol, hrc⟩ := hmem
  rw [List.mem_filter] at hcol
  obtain ⟨hcr, hne⟩ := hcol
  subst hrc
  exact ⟨List.mem_range.mp hrow, List.mem_range.mp hcr, by simpa using hne⟩

/-- C5: with the SERVER_AUTHORITATIVE policy on the client (not the server
authority), resolveConflict succeeds with the remote snapshot as resolved
state, requires a rollback, and returns exactly one compensation move per
player-grid cell on which the local snapshot differs from the target, for
every pair of snapshots; in particular two snapshots differing in 7 cells
yield 7 entries. -/
theorem resolveServerAuthoritative_client_spec (conflict : ConflictType)
    (l r : StateSnapshot) :
    (ConflictResolver.resolveConflict .SERVER_AUTHORITATIVE false conflict l r).success = true ∧
    (ConflictResolver.resolveConflict .SERVER_AUTHORITATIVE false conflict l r).resolvedState = r ∧
    (ConflictResolver.resolveConflict .SERVER_AUTHORITATIVE false conflict l r).rollbackRequired
      = true ∧
    ((ConflictResolver.resolveConflict .SERVER_AUTHORITATIVE false conflict l r).compensationMoves.map
        (fun m => (m.position.row, m.position.col)) = diffCells8 l.playerGrid r.playerGrid) ∧
    (∀ m ∈ (ConflictResolver.resolveConflict .SERVER_AUTHORITATIVE false conflict l r).compensationMoves,
      m.oldValue = cellAt l.playerGrid m.position.row m.position.col ∧
      m.newValue = cellAt r.playerGrid m.position.row m.position.col ∧
      m.oldValue ≠ m.newValue) ∧
    ((ConflictResolver.resolveConflict .SERVER_AUTHORITATIVE false conflict l r).compensationMoves.length
      = (diffCells8 l.playerGrid r.playerGrid).length) ∧
    ((diffCells8 l.playerGrid r.playerGrid).length = 7 →
      (ConflictResolver.resolveConflict .SERVER_AUTHORITATIVE false conflict l r).compensationMoves.length
        = 7) := by
  have hres : ConflictResolver.resolveConflict .SERVER_AUTHORITATIVE false conflict l r =
      ConflictResolver.resolveServerAuthoritative false l r := rfl
  have hcomp : (ConflictResolver.resolveConflict .SERVER_AUTHORITATIVE false conflict l r).compensationMoves =
      (diffCells8 l.playerGrid r.playerGrid).map (fun rc =>
        { position := { row := rc.1, col := rc.2 }
          oldValue := cellAt l.playerGrid rc.1 rc.2
          newValue := cellAt r.playerGrid rc.1 rc.2
          reason := "Grid synchronization" }) := by
    rw [hres]
    unfold ConflictResolver.resolveServerAuthoritative
    simp only [Bool.false_eq_true, if_false]
    exact generateCompensationMoves_eq l r
  refine ⟨rfl, rfl, rfl, ?_, ?_, ?_, ?_⟩
  · rw [hcomp, List.map_map]
    have hid : ((fun (m : CompensationMove) => (m.position.row, m.position.col)) ∘
        (fun rc : Nat × Nat =>
          ({ position := { row := rc.1, col := rc.2 }
             oldValue := cellAt l.playerGrid rc.1 rc.2
             newValue := cellAt r.playerGrid rc.1 rc.2
             reason := "Grid synchronization" } : CompensationMove))) = id := by
      funext rc
      rfl
    rw [hid, List.map_id]
  · intro m hm
    rw [hcomp, List.mem_map] at hm
    obtain ⟨rc, hrc, hmeq⟩ := hm
    have hd := diffCells8_mem hrc
    subst hmeq
    exact ⟨rfl, rfl, hd.2.2⟩
  · rw [hcomp, List.length_map]
  · intro h7
    rw [hcomp, List.length_map, h7]

/-- Witness for C5 at two concrete 8 x 8 snapshots differing in exactly 7
player-grid cells, discharging the 7-cell instance. -/
theorem resolveServerAuthoritative_client_spec_witness :
    (diffCells8 snapLocal8.playerGrid snapRemote8.playerGrid).length = 7 ∧
    ((ConflictResolver.resolveConflict .SERVER_AUTHORITATIVE false .GRID_INCONSISTENCY snapLocal8
        snapRemote8).resolvedState = snapRemote8 ∧
     (ConflictResolver.resolveConflict .SERVER_AUTHORITATIVE false .GRID_INCONSISTENCY snapLocal8
        snapRemote8).compensationMoves.length = 7) :=
  ⟨by decide,
   (resolveServerAuthoritative_client_spec .GRID_INCONSISTENCY snapLocal8 snapRemote8).2.1,
   (resolveServerAuthoritative_client_spec .GRID_INCONSISTENCY snapLocal8
      snapRemote8).2.2.2.2.2.2 (by decide)⟩

lemma cellAt_mergeGrids (g1 g2 : Grid) (row col : Nat)
    (hrow : row < max g1.length g2.length) (hcol : col < 8) :
    cellAt (ConflictResolver.mergeGrids g1 g2) row col =
      some (if (cellAt g1 row col).getD CandyType.EMPTY ≠ CandyType.EMPTY
            then (cellAt g1 row col).getD CandyType.EMPTY
            else (cellAt g2 row col).getD CandyType.EMPTY) := by
  show ((ConflictResolver.mergeGrids g1 g2)[row]?).bind (fun r => r[col]?) = _
  unfold ConflictResolver.mergeGrids
  rw [List.getElem?_map, List.getElem?_range hrow]
  simp only [Option.map_some', Option.some_bind]
  rw [List.getElem?_map, List.getElem?_range hcol]
  rfl

/-- C6: MERGE resolution takes the max of every scalar, the later snapshot's
timestamp, turn and active events, the non-empty cell preferring the local
grid, and bumps the version past both inputs, with no rollback. -/
theorem resolveMerge_spec (isServerAuthority : Bool) (conflict : ConflictType)
    (l r : StateSnapshot) (hl : dims8 l) (hr : dims8 r) :
    mergeResolutionSpec l r
      (ConflictResolver.resolveConflict .MERGE isServerAuthority conflict l r) := by
  obtain ⟨hl1, hl2⟩ := hl
  obtain ⟨hr1, hr2⟩ := hr
  have hlp : l.playerGrid.length = 8 := by
    have := congrArg List.length hl1; simpa using this
  have hlo : l.opponentGrid.length = 8 := by
    have := congrArg List.length hl2; simpa using this
  have hrp : r.playerGrid.length = 8 := by
    have := congrArg List.length hr1; simpa using this
  have hro : r.opponentGrid.length = 8 := by
    have := congrArg List.length hr2; simpa using this
  have hres : ConflictResolver.resolveConflict .MERGE isServerAuthority conflict l r =
      ConflictResolver.resolveMerge l r := rfl
  rw [hres]
  unfold mergeResolutionSpec ConflictResolver.resolveMerge
  by_cases hts : r.timestamp > l.timestamp
  · refine ⟨rfl, rfl, by simp [hts], by simp [hts], by simp [hts], by simp [hts], by simp [hts],
      by simp [hts], ⟨r, Or.inr rfl, le_of_lt hts, le_refl _, by simp [hts], by simp [hts],
        by simp [hts]⟩, ?_, ?_⟩
    · intro row col h8r h8c
      have hrow : row < max l.playerGrid.length r.opponentGrid.length := by
        rw [hlp, hro]; omega
      simpa using cellAt_mergeGrids l.playerGrid r.opponentGrid row col hrow h8c
    · intro row col h8r h8c
      have hrow : row < max l.opponentGrid.length r.playerGrid.length := by
        rw [hlo, hrp]; omega
      simpa using cellAt_mergeGrids l.opponentGrid r.playerGrid row col hrow h8c
  · refine ⟨rfl, rfl, by simp [hts], by simp [hts], by simp [hts], by simp [hts], by simp [hts],
      by simp [hts], ⟨l, Or.inl rfl, le_refl _, by omega, by simp [hts], by simp [hts],
        by simp [hts]⟩, ?_, ?_⟩
    · intro row col h8r h8c
      have hrow : row < max l.playerGrid.length r.opponentGrid.length := by
        rw [hlp, hro]; omega
      simpa using cellAt_mergeGrids l.playerGrid r.opponentGrid row col hrow h8c
    · intro row col h8r h8c
      have hrow : row < max l.opponentGrid.length r.playerGrid.length := by
        rw [hlo, hrp]; omega
      simpa using cellAt_mergeGrids l.opponentGrid r.playerGrid row col hrow h8c

/-- Witness for C6 at two concrete 8 x 8 snapshots. -/
theorem resolveMerge_spec_witness :
    dims8 snapLocal8 ∧ dims8 snapRemote8 ∧
    mergeResolutionSpec snapLocal8 snapRemote8
      (ConflictResolver.resolveConflict .MERGE false .VERSION_MISMATCH snapLocal8 snapRemote8) :=
  ⟨by decide, by decide,
   resolveMerge_spec false .VERSION_MISMATCH snapLocal8 snapRemote8 (by decide) (by decide)⟩

/-- C2 evaluation at the failing input: in room roomB the turn is on A, yet a
MOVE sent by B is appended to the move log and forwarded to A; no ERROR of
any code is sent to anyone, and the room's currentTurn stays on A. -/
theorem handleMove_no_turn_enforcement :
    (BattleServer.handleMove sampleServerState "B" "roomB" sampleMove 500).2 =
      [("A", ServerMessage.move "B" sampleMove 500)] ∧
    (∀ out ∈ (BattleServer.handleMove sampleServerState "B" "roomB" sampleMove 500).2,
      ∀ code, out.2 ≠ ServerMessage.error code) ∧
    ((BattleServer.lookupRoom
        (BattleServer.handleMove sampleServerState "B" "roomB" sampleMove 500).1.rooms
        "roomB").map (fun room => room.currentTurn) = some (some "A")) ∧
    ((BattleServer.lookupRoom
        (BattleServer.handleMove sampleServerState "B" "roomB" sampleMove 500).1.rooms
        "roomB").map (fun room => room.moveHistory) =
      some [{ playerId := "B", move := sampleMove, timestamp := 500 }]) := by
  have h1 : (BattleServer.handleMove sampleServerState "B" "roomB" sampleMove 500).2 =
      [("A", ServerMessage.move "B" sampleMove 500)] := by decide
  refine ⟨h1, ?_, by decide, by decide⟩
  intro out hout code
  rw [h1, List.mem_singleton] at hout
  subst hout
  simp

lemma lookupRoom_updateRoom (rooms : List (String × BattleServer.BattleRoom)) (rid : String)
    (room newRoom : BattleServer.BattleRoom)
    (hfind : BattleServer.lookupRoom rooms rid = some room) :
    BattleServer.lookupRoom (BattleServer.updateRoom rooms rid newRoom) rid = some newRoom := by
  induction rooms with
  | nil => simp [BattleServer.lookupRoom] at hfind
  | cons entry rest ih =>
    by_cases he : entry.1 = rid
    · simp [BattleServer.lookupRoom, BattleServer.updateRoom, he]
    · have hrest : BattleServer.lookupRoom rest rid = some room := by
        simp only [BattleServer.lookupRoom] at hfind ⊢
        rw [List.find?_cons_of_neg _ (by simpa using he)] at hfind
        exact hfind
      have hih := ih hrest
      simp only [BattleServer.updateRoom, List.map_cons, if_neg he,
        BattleServer.lookupRoom] at hih ⊢
      rw [List.find?_cons_of_neg _ (by simpa using he)]
      exact hih

/-- C8: addPlayer succeeds exactly while the room holds fewer than 2 players;
when the second player B joins a room holding only A, both receive GAME_START
with players [A, B] and startingPlayer A, the joiner receives ROOM_JOINED
with opponent A and playerCount 2 (the opponent is also notified), and the
room is started with A to move; a JOIN_ROOM for a room already holding 2
players is answered with ROOM_FULL and leaves the server state unchanged. -/
theorem joinRoom_spec
    (st : BattleServer.ServerState) (rid : String) (room : BattleServer.BattleRoom)
    (A B : String)
    (hfind : BattleServer.lookupRoom st.rooms rid = some room)
    (hid : room.id = rid)
    (hone : room.players = [A])
    (hAB : A ≠ B)
    (st2 : BattleServer.ServerState) (rid2 : String) (room2 : BattleServer.BattleRoom)
    (B2 : String)
    (hfind2 : BattleServer.lookupRoom st2.rooms rid2 = some room2)
    (hfull : 2 ≤ room2.players.length) :
    (∀ (room3 : BattleServer.BattleRoom) (p : String),
      (BattleServer.addPlayer room3 p).2.2 = true ↔ room3.players.length < 2) ∧
    ((BattleServer.handleJoinRoom st B rid).2 =
      [(A, ServerMessage.gameStart rid [A, B] A), (B, ServerMessage.gameStart rid [A, B] A),
       (B, ServerMessage.roomJoined rid (some A) 2),
       (A, ServerMessage.roomJoined rid (some B) 2)]) ∧
    ((BattleServer.lookupRoom (BattleServer.handleJoinRoom st B rid).1.rooms rid).map
        (fun rm => (rm.players, rm.gameStarted, rm.currentTurn)) =
      some ([A, B], true, some A)) ∧
    (BattleServer.handleJoinRoom st2 B2 rid2 = (st2, [(B2, ServerMessage.roomFull rid2)])) := by
  have haddgen : ∀ (room3 : BattleServer.BattleRoom) (p : String),
      (BattleServer.addPlayer room3 p).2.2 = true ↔ room3.players.length < 2 := by
    intro room3 p
    simp only [BattleServer.addPlayer]
    split_ifs with hge h2
    · simp only [BattleServer.maxPlayers] at hge
      constructor
      · intro h; exact absurd h (by simp)
      · intro h; omega
    · simp only [BattleServer.maxPlayers] at hge
      constructor
      · intro h; omega
      · intro h; rfl
    · simp only [BattleServer.maxPlayers] at hge
      constructor
      · intro h; omega
      · intro h; rfl
  have hadd : BattleServer.addPlayer room B =
      ({ room with
          players := [A, B]
          gameStarted := true
          currentTurn := some A
          playerStates := room.playerStates ++
            [(B, { score := 0, moves := 0, connected := true })] },
       [(A, ServerMessage.gameStart room.id [A, B] A),
        (B, ServerMessage.gameStart room.id [A, B] A)], true) := by
    unfold BattleServer.addPlayer BattleServer.startGame BattleServer.broadcast
    rw [if_neg (by simp [BattleServer.maxPlayers, hone]),
        if_pos (by simp [BattleServer.maxPlayers, hone])]
    simp [hone]
  have hnotfull : ¬(BattleServer.isFull room = true) := by
    simp [BattleServer.isFull, BattleServer.maxPlayers, hone]
  have hfind3 : List.find? (fun p => !decide (p = B)) [A, B] = some A :=
    List.find?_cons_of_pos _ (by simpa using hAB)
  refine ⟨haddgen, ?_, ?_, ?_⟩
  · simp only [BattleServer.handleJoinRoom, hfind]
    rw [if_neg hnotfull]
    simp only [hadd]
    simp [hfind3, hid, hAB]
  · simp only [BattleServer.handleJoinRoom, hfind]
    rw [if_neg hnotfull]
    simp only [hadd]
    have hupd := lookupRoom_updateRoom st.rooms rid room
      { room with
          players := [A, B]
          gameStarted := true
          currentTurn := some A
          playerStates := room.playerStates ++
            [(B, { score := 0, moves := 0, connected := true })] } hfind
    simp [hupd]
  · simp only [BattleServer.handleJoinRoom, hfind2]
    rw [if_pos (by simp [BattleServer.isFull, BattleServer.maxPlayers]; omega)]

/-- Witness for C8 at the concrete server state: B joins the one-player room
roomA and C is refused from the full room roomB. -/
theorem joinRoom_spec_witness :
    BattleServer.lookupRoom sampleServerState.rooms "roomA" = some roomWithA ∧
    roomWithA.players = ["A"] ∧
    BattleServer.lookupRoom sampleServerState.rooms "roomB" = some roomAB ∧
    2 ≤ roomAB.players.length ∧
    ((∀ (room3 : BattleServer.BattleRoom) (p : String),
        (BattleServer.addPlayer room3 p).2.2 = true ↔ room3.players.length < 2) ∧
     ((BattleServer.handleJoinRoom sampleServerState "B" "roomA").2 =
       [("A", ServerMessage.gameStart "roomA" ["A", "B"] "A"),
        ("B", ServerMessage.gameStart "roomA" ["A", "B"] "A"),
        ("B", ServerMessage.roomJoined "roomA" (some "A") 2),
        ("A", ServerMessage.roomJoined "roomA" (some "B") 2)]) ∧
     ((BattleServer.lookupRoom (BattleServer.handleJoinRoom sampleServerState "B" "roomA").1.rooms
          "roomA").map (fun rm => (rm.players, rm.gameStarted, rm.currentTurn)) =
       some (["A", "B"], true, some "A")) ∧
     (BattleServer.handleJoinRoom sampleServerState "C" "roomB" =
       (sampleServerState, [("C", ServerMessage.roomFull "roomB")]))) :=
  ⟨by decide, by decide, by decide, by decide,
   joinRoom_spec sampleServerState "roomA" roomWithA "A" "B" (by decide) (by decide) (by decide)
     (by decide) sampleServerState "roomB" roomAB "C" (by decide) (by decide)⟩

lemma removeFromQueue_not_mem (q : List BattleServer.Ticket) (pid : String)
    (hq : (q.filter (fun t => t.playerId = pid)).length ≤ 1) :
    ∀ t ∈ BattleServer.removeFromQueue q pid, t.playerId ≠ pid := by
  induction q with
  | nil => intro t ht; simp [BattleServer.removeFromQueue] at ht
  | cons a q ih =>
    intro t ht
    simp only [BattleServer.removeFromQueue] at ht
    by_cases ha : a.playerId = pid
    · rw [if_pos ha] at ht
      have hnil : q.filter (fun t => decide (t.playerId = pid)) = [] := by
        simpa [List.filter_cons, ha] using hq
      intro hcontra
      have hmem : t ∈ q.filter (fun t => decide (t.playerId = pid)) :=
        List.mem_filter.mpr ⟨ht, by simpa using hcontra⟩
      rw [hnil] at hmem
      exact absurd hmem (List.not_mem_nil t)
    · rw [if_neg ha] at ht
      rcases List.mem_cons.mp ht with h | h
      · subst h; exact ha
      · refine ih ?_ t h
        simpa [List.filter_cons, ha] using hq

lemma processQueue_remaining_le (freshId : Nat → String) (now : Int) :
    ∀ (m : Nat) (q : List BattleServer.Ticket) (k : Nat), q.length ≤ m →
      ((BattleServer.processMatchmakingQueue freshId now k q).2.2).length ≤ 1 := by
  intro m
  induction m with
  | zero =>
    intro q k h
    have hq : q = [] := List.length_eq_zero.mp (Nat.le_zero.mp h)
    subst hq
    simp [BattleServer.processMatchmakingQueue]
  | succ m ih =>
    intro q k h
    match q with
    | [] => simp [BattleServer.processMatchmakingQueue]
    | [t] => simp [BattleServer.processMatchmakingQueue]
    | t1 :: t2 :: rest =>
      rcases hpq : BattleServer.processMatchmakingQueue freshId now (k + 1) rest with
        ⟨rooms, outRest, remaining⟩
      have hr := ih rest (k + 1) (by simp at h; omega)
      rw [hpq] at hr
      simpa [BattleServer.processMatchmakingQueue, hpq] using hr

/-- C9: a drain over a queue holding at least two tickets pairs the two
oldest into a fresh room holding both peers (started, first peer to move),
sends each of the two a GAME_START carrying the new room id and the other
peer's id, recurses on the rest of the queue until fewer than two tickets
remain, and a disconnected peer's ticket is no longer in the queue. -/
theorem matchmaking_drain_spec (freshId : Nat → String) (now : Int) (k : Nat)
    (t1 t2 : BattleServer.Ticket) (rest : List BattleServer.Ticket)
    (st : BattleServer.ServerState) (pid : String)
    (hq : (st.matchmakingQueue.filter (fun t => t.playerId = pid)).length ≤ 1) :
    (∃ room rooms2,
      (BattleServer.processMatchmakingQueue freshId now k (t1 :: t2 :: rest)).1 =
        (freshId k, room) :: rooms2 ∧
      room.players = [t1.playerId, t2.playerId] ∧
      room.gameStarted = true ∧
      room.currentTurn = some t1.playerId ∧
      rooms2 = (BattleServer.processMatchmakingQueue freshId now (k + 1) rest).1) ∧
    ((t1.playerId, ServerMessage.gameStartMatch (freshId k) t2.playerId) ∈
      (BattleServer.processMatchmakingQueue freshId now k (t1 :: t2 :: rest)).2.1) ∧
    ((t2.playerId, ServerMessage.gameStartMatch (freshId k) t1.playerId) ∈
      (BattleServer.processMatchmakingQueue freshId now k (t1 :: t2 :: rest)).2.1) ∧
    ((BattleServer.processMatchmakingQueue freshId now k (t1 :: t2 :: rest)).2.2 =
      (BattleServer.processMatchmakingQueue freshId now (k + 1) rest).2.2) ∧
    ((BattleServer.processMatchmakingQueue freshId now k (t1 :: t2 :: rest)).2.2.length ≤ 1) ∧
    (∀ t ∈ (BattleServer.handleDisconnect st pid).1.matchmakingQueue, t.playerId ≠ pid) := by
  rcases hpq : BattleServer.processMatchmakingQueue freshId now (k + 1) rest with
    ⟨rooms, outRest, remaining⟩
  refine ⟨?_, ?_, ?_, ?_, ?_, ?_⟩
  · refine ⟨{ id := freshId k
              players := [t1.playerId, t2.playerId]
              gameStarted := true
              currentTurn := some t1.playerId
              playerStates := [(t1.playerId, { score := 0, moves := 0, connected := true }),
                               (t2.playerId, { score := 0, moves := 0, connected := true })]
              moveHistory := []
              createdAt := now }, rooms, ?_, rfl, rfl, rfl, rfl⟩
    · simp [BattleServer.processMatchmakingQueue, hpq, BattleServer.addPlayer,
        BattleServer.newRoom, BattleServer.startGame, BattleServer.broadcast,
        BattleServer.maxPlayers]
  · simp [BattleServer.processMatchmakingQueue, hpq, BattleServer.addPlayer,
      BattleServer.newRoom, BattleServer.startGame, BattleServer.broadcast,
      BattleServer.maxPlayers]
  · simp [BattleServer.processMatchmakingQueue, hpq, BattleServer.addPlayer,
      BattleServer.newRoom, BattleServer.startGame, BattleServer.broadcast,
      BattleServer.maxPlayers]
  · simp [BattleServer.processMatchmakingQueue, hpq, BattleServer.addPlayer,
      BattleServer.newRoom, BattleServer.startGame, BattleServer.broadcast,
      BattleServer.maxPlayers]
  · rcases hpq2 : BattleServer.processMatchmakingQueue freshId now k (t1 :: t2 :: rest) with
      ⟨roomsAll, outAll, remAll⟩
    have := processQueue_remaining_le freshId now (t1 :: t2 :: rest).length
      (t1 :: t2 :: rest) k le_rfl
    rw [hpq2] at this
    simpa using this
  · have hqueue : (BattleServer.handleDisconnect st pid).1.matchmakingQueue =
        BattleServer.removeFromQueue st.matchmakingQueue pid := by
      simp [BattleServer.handleDisconnect]
    rw [hqueue]
    exact removeFromQueue_not_mem st.matchmakingQueue pid hq

/-- Witness for C9: draining a three-ticket queue pairs X and Y into the
fresh room and notifies both, and X's disconnect removes its ticket. -/
theorem matchmaking_drain_spec_witness :
    ((queuedServerState.matchmakingQueue.filter (fun t => t.playerId = "X")).length ≤ 1) ∧
    (("X", ServerMessage.gameStartMatch (sampleFreshId 0) "Y") ∈
      (BattleServer.processMatchmakingQueue sampleFreshId 100 0
        [{ playerId := "X", timestamp := 10 }, { playerId := "Y", timestamp := 20 },
         { playerId := "Z", timestamp := 30 }]).2.1) ∧
    (("Y", ServerMessage.gameStartMatch (sampleFreshId 0) "X") ∈
      (BattleServer.processMatchmakingQueue sampleFreshId 100 0
        [{ playerId := "X", timestamp := 10 }, { playerId := "Y", timestamp := 20 },
         { playerId := "Z", timestamp := 30 }]).2.1) ∧
    (∀ t ∈ (BattleServer.handleDisconnect queuedServerState "X").1.matchmakingQueue,
      t.playerId ≠ "X") :=
  ⟨by decide,
   (matchmaking_drain_spec sampleFreshId 100 0 { playerId := "X", timestamp := 10 }
      { playerId := "Y", timestamp := 20 } [{ playerId := "Z", timestamp := 30 }]
      queuedServerState "X" (by decide)).2.1,
   (matchmaking_drain_spec sampleFreshId 100 0 { playerId := "X", timestamp := 10 }
      { playerId := "Y", timestamp := 20 } [{ playerId := "Z", timestamp := 30 }]
      queuedServerState "X" (by decide)).2.2.1,
   (matchmaking_drain_spec sampleFreshId 100 0 { playerId := "X", timestamp := 10 }
      { playerId := "Y", timestamp := 20 } [{ playerId := "Z", timestamp := 30 }]
      queuedServerState "X" (by decide)).2.2.2.2.2⟩
